import Mathlib

/-!
Shallow embedding of the storage-and-caching layer of the adTime bot
(Go package `postgres`, file `src/unnamed/part_001`), together with proofs
of its specified properties.

Modelling conventions:
* Go `error` values are modelled by the inductive `GoErr`.  A sentinel error
  (such as `sql.ErrNoRows`, a package-level variable compared by identity)
  is `GoErr.sentinel name`.  `fmt.Errorf` without a `%w` verb produces a
  fresh message-only error, `GoErr.msg text`; `fmt.Errorf` with `%w`
  produces `GoErr.wrap text inner`, which `errors.Is` unwraps.
* Monetary amounts (`float64` in Go) are modelled as `Int`; every claim
  about them only compares against zero, which this modelling preserves.
* Timestamps are modelled as `Int` (seconds); durations as `Nat` (seconds).
* The Redis cache is an association list from keys to entries; an entry
  stores the deserialized payload (`CacheVal`) together with the TTL the
  `Set` call supplied.  `json.Marshal`/`json.Unmarshal` round-trip, so a
  payload written as a texture deserializes back to that texture; the
  `corrupt` constructor stands for bytes that fail to deserialize.
* Infrastructure failures (a failing SELECT, a failing `json.Marshal`, a
  failing Redis `Set`) are supplied as explicit oracle arguments, so each
  Go function becomes a total Lean function of its inputs and those
  oracles.
-/

/-- Go `error` values: a package-level sentinel (compared by identity by
`errors.Is`), a fresh message-only error from `fmt.Errorf` without `%w`,
or a wrapping error from `fmt.Errorf` with `%w`. -/
inductive GoErr : Type where
  | sentinel (name : String)
  | msg (text : String)
  | wrap (text : String) (inner : GoErr)
deriving Repr, DecidableEq

/-- The `database/sql` sentinel `sql.ErrNoRows`. -/
def sqlErrNoRows : GoErr := GoErr.sentinel "sql: no rows in result set"

/-- Go `errors.Is(err, target)`: walk the unwrap chain of `err`, comparing
each link to `target` by identity.  Only sentinels are pre-existing values
that can compare equal by identity; `fmt.Errorf` results are fresh
allocations, so a `msg` or `wrap` link never equals a given target. -/
def errorsIs : GoErr → GoErr → Bool
  | GoErr.sentinel n, GoErr.sentinel m => n == m
  | GoErr.sentinel _, _ => false
  | GoErr.msg _, _ => false
  | GoErr.wrap _ inner, t => errorsIs inner t

/-- Whether the unwrap chain of an error reaches any sentinel at all.  An
error whose chain holds no sentinel cannot be matched by `errors.Is`
against any pre-existing error value: it is testable only by its text. -/
def hasSentinel : GoErr → Bool
  | GoErr.sentinel _ => true
  | GoErr.msg _ => false
  | GoErr.wrap _ inner => hasSentinel inner

theorem errorsIs_sentinel_of_hasSentinel_false (e t : GoErr)
    (h : hasSentinel e = false) : errorsIs e t = false := by
  induction e with
  | sentinel n => simp [hasSentinel] at h
  | msg s => cases t <;> rfl
  | wrap s inner ih => exact ih (by simpa [hasSentinel] using h)

/-! ## Data model (structs `Texture`, `Order`, `OrderStatistics` and the
relational rows they are read from) -/

/-- The Go struct `Texture`. -/
structure Texture : Type where
  id : String
  name : String
  pricePerDM2 : Int
  imageURL : String
  inStock : Bool
deriving Repr, DecidableEq

/-- The Go struct `Order` as the caller fills it for `SaveOrder` and as
point lookups return it. -/
structure Order : Type where
  id : Int
  userID : Int
  widthCM : Int
  heightCM : Int
  textureID : String
  textureName : String
  price : Int
  leatherCost : Int
  processCost : Int
  totalCost : Int
  commission : Int
  tax : Int
  netRevenue : Int
  profit : Int
  contact : String
  status : String
  createdAt : Int
  updatedAt : Int
deriving Repr, DecidableEq

/-- A row of the `orders` table: the `Order` columns plus the nullable
soft-delete timestamp `deleted_at`. -/
structure OrderRow : Type where
  id : Int
  userID : Int
  widthCM : Int
  heightCM : Int
  textureID : String
  textureName : String
  price : Int
  leatherCost : Int
  processCost : Int
  totalCost : Int
  commission : Int
  tax : Int
  netRevenue : Int
  profit : Int
  contact : String
  status : String
  createdAt : Int
  updatedAt : Int
  deletedAt : Option Int
deriving Repr, DecidableEq

/-- The Go struct `OrderStatistics`; the status map is modelled as an
association list from status to count. -/
structure OrderStatistics : Type where
  totalOrders : Nat
  totalRevenue : Int
  todayOrders : Nat
  todayRevenue : Int
  weekOrders : Nat
  weekRevenue : Int
  monthOrders : Nat
  monthRevenue : Int
  statusCounts : List (String × Nat)
deriving Repr, DecidableEq

/-- A row of the `users` table. -/
structure UserRow : Type where
  userID : Int
  agreed : Bool
  phone : String
deriving Repr, DecidableEq

/-! ## Cache model -/

/-- A deserialized cache payload.  `corrupt` stands for bytes on which
`json.Unmarshal` into the expected struct fails. -/
inductive CacheVal : Type where
  | texPayload (t : Texture)
  | statsPayload (s : OrderStatistics)
  | corrupt (tag : Nat)
deriving Repr, DecidableEq

/-- A cache entry: the payload and the TTL (seconds) the `Set` supplied. -/
structure CacheEntry : Type where
  val : CacheVal
  ttl : Nat
deriving Repr, DecidableEq

/-- The Redis key/value store, an association list from key to entry. -/
def Cache : Type := List (String × CacheEntry)

/-- `redis.Get`: `some entry` is a hit, `none` is a miss (or Get error). -/
def cacheGet (c : Cache) (k : String) : Option CacheEntry :=
  (List.find? (fun p => p.1 == k) c).map (fun p => p.2)

/-- `redis.Set` with a TTL: replace any previous entry under the key. -/
def cacheSet (c : Cache) (k : String) (v : CacheVal) (ttl : Nat) : Cache :=
  (k, CacheEntry.mk v ttl) :: List.filter (fun p => ¬ p.1 == k) c

/-- `redis.Del`: remove the entry under the key. -/
def cacheDel (c : Cache) (k : String) : Cache :=
  List.filter (fun p => ¬ p.1 == k) c

/-- `json.Unmarshal` of a cached payload into a `Texture`. -/
def unmarshalTexture : CacheVal → Option Texture
  | CacheVal.texPayload t => some t
  | _ => none

/-- `json.Unmarshal` of a cached payload into an `OrderStatistics`. -/
def unmarshalStats : CacheVal → Option OrderStatistics
  | CacheVal.statsPayload s => some s
  | _ => none

theorem cacheGet_cacheDel (c : Cache) (k : String) :
    cacheGet (cacheDel c k) k = none := by
  unfold cacheGet cacheDel
  rw [List.find?_eq_none.mpr]
  · rfl
  · intro p hp
    have := List.of_mem_filter hp
    simpa using this

theorem cacheGet_cacheSet (c : Cache) (k : String) (v : CacheVal) (ttl : Nat) :
    cacheGet (cacheSet c k v ttl) k = some (CacheEntry.mk v ttl) := by
  unfold cacheGet cacheSet
  simp [List.find?]

/-! ## `GetTextureByID` (read-through cache with validation) -/

/-- The cache key `fmt.Sprintf("texture:%s", textureID)`. -/
def textureCacheKey (textureID : String) : String := "texture:" ++ textureID

/-- The SELECT of `GetTextureByID` against the `textures` table; `dbFail`
is the infrastructure-failure oracle of this query (a non-`ErrNoRows`
driver error), and an absent row yields `sql.ErrNoRows`, as
`sqlx.GetContext` does. -/
def dbGetTexture (textures : List Texture) (dbFail : Option GoErr)
    (textureID : String) : Except GoErr Texture :=
  match dbFail with
  | some e => Except.error e
  | none =>
    match List.find? (fun t => t.id == textureID) textures with
    | some t => Except.ok t
    | none => Except.error sqlErrNoRows

/-- The store fall-back path of `GetTextureByID` (everything after the
cache branch): query the table, classify the error (`ErrNoRows` is wrapped
as "texture not found", anything else as "failed to get texture"), reject
a non-positive price, and otherwise cache the result for 24 hours —
skipping the cache write when `json.Marshal` fails (`marshalOk = false`)
or the Redis `Set` fails (`setOk = false`), without surfacing either. -/
def getTextureFromDB (cache : Cache) (textures : List Texture)
    (dbFail : Option GoErr) (marshalOk setOk : Bool) (textureID : String) :
    Except GoErr Texture × Cache :=
  match dbGetTexture textures dbFail textureID with
  | Except.error e =>
    if errorsIs e sqlErrNoRows then
      (Except.error (GoErr.wrap "texture not found" e), cache)
    else
      (Except.error (GoErr.wrap "failed to get texture" e), cache)
  | Except.ok t =>
    if t.pricePerDM2 ≤ 0 then
      (Except.error (GoErr.msg ("invalid price for texture " ++ textureID)),
       cache)
    else
      (Except.ok t,
       if marshalOk && setOk then
         cacheSet cache (textureCacheKey textureID)
           (CacheVal.texPayload t) (24 * 3600)
       else cache)

/-- `GetTextureByID`: try the cache first; on a hit that deserializes,
trust it only when the price is strictly positive, otherwise fall through
to the store path. -/
def getTextureByID (cache : Cache) (textures : List Texture)
    (dbFail : Option GoErr) (marshalOk setOk : Bool) (textureID : String) :
    Except GoErr Texture × Cache :=
  match cacheGet cache (textureCacheKey textureID) with
  | some entry =>
    match unmarshalTexture entry.val with
    | some t =>
      if t.pricePerDM2 ≤ 0 then
        getTextureFromDB cache textures dbFail marshalOk setOk textureID
      else
        (Except.ok t, cache)
    | none => getTextureFromDB cache textures dbFail marshalOk setOk textureID
  | none => getTextureFromDB cache textures dbFail marshalOk setOk textureID

/-! ## Orders store: `SaveOrder`, `GetOrderByID`, `GetUserOrders`,
`DeleteUserData` -/

/-- The relational `orders` table together with the sequence that assigns
the next order id on insert. -/
structure Db : Type where
  orders : List OrderRow
  nextOrderID : Int
deriving Repr, DecidableEq

/-- The row the `SaveOrder` INSERT produces.  The INSERT names exactly the
columns `user_id, width_cm, height_cm, texture_id, price, leather_cost,
process_cost, total_cost, commission, tax, net_revenue, profit, contact,
status, created_at`; `texture_name` and `updated_at` are not among them, so
the stored row carries their column defaults (empty string, zero), and
`deleted_at` is NULL.  `created_at` is caller-supplied, not
server-assigned. -/
def insertedRow (order : Order) (id : Int) : OrderRow :=
  { id := id
    userID := order.userID
    widthCM := order.widthCM
    heightCM := order.heightCM
    textureID := order.textureID
    textureName := ""
    price := order.price
    leatherCost := order.leatherCost
    processCost := order.processCost
    totalCost := order.totalCost
    commission := order.commission
    tax := order.tax
    netRevenue := order.netRevenue
    profit := order.profit
    contact := order.contact
    status := order.status
    createdAt := order.createdAt
    updatedAt := 0
    deletedAt := none }

/-- `SaveOrder`: insert the order (id assigned by the store); on insert
failure return the wrapped "failed to save order" error and touch nothing;
on success delete the cached statistics entry `"order_stats"` and return
the assigned id. -/
def saveOrder (db : Db) (cache : Cache) (insertFail : Option GoErr)
    (order : Order) : Except GoErr Int × Db × Cache :=
  match insertFail with
  | some e => (Except.error (GoErr.wrap "failed to save order" e), db, cache)
  | none =>
    (Except.ok db.nextOrderID,
     Db.mk (db.orders ++ [insertedRow order db.nextOrderID])
       (db.nextOrderID + 1),
     cacheDel cache "order_stats")

/-- The SELECT of `GetOrderByID`: `SELECT * FROM orders WHERE id = $1`,
with no soft-delete filter; an absent row yields `sql.ErrNoRows`. -/
def dbGetOrder (rows : List OrderRow) (dbFail : Option GoErr)
    (orderID : Int) : Except GoErr OrderRow :=
  match dbFail with
  | some e => Except.error e
  | none =>
    match List.find? (fun r => r.id == orderID) rows with
    | some r => Except.ok r
    | none => Except.error sqlErrNoRows

/-- `GetOrderByID`: point lookup.  On `ErrNoRows` the code returns
`fmt.Errorf("order not found")` — a fresh message-only error that does not
wrap the sentinel; any other failure is wrapped as "failed to get order". -/
def getOrderByID (rows : List OrderRow) (dbFail : Option GoErr)
    (orderID : Int) : Except GoErr OrderRow :=
  match dbGetOrder rows dbFail orderID with
  | Except.error e =>
    if errorsIs e sqlErrNoRows then Except.error (GoErr.msg "order not found")
    else Except.error (GoErr.wrap "failed to get order" e)
  | Except.ok r => Except.ok r

/-- The six columns `GetUserOrders` selects
(`id, width_cm, height_cm, price, status, created_at`) scanned into the Go
`Order` struct: unselected fields keep their zero values. -/
def userOrderView (r : OrderRow) : Order :=
  { id := r.id
    userID := 0
    widthCM := r.widthCM
    heightCM := r.heightCM
    textureID := ""
    textureName := ""
    price := r.price
    leatherCost := 0
    processCost := 0
    totalCost := 0
    commission := 0
    tax := 0
    netRevenue := 0
    profit := 0
    contact := ""
    status := r.status
    createdAt := r.createdAt
    updatedAt := 0 }

/-- The `ORDER BY created_at DESC` ordering on order rows. -/
def createdDescRel (a b : OrderRow) : Prop := b.createdAt ≤ a.createdAt

instance : DecidableRel createdDescRel := fun a b =>
  inferInstanceAs (Decidable (b.createdAt ≤ a.createdAt))

instance : IsTotal OrderRow createdDescRel :=
  ⟨fun a b => (le_total b.createdAt a.createdAt).imp id id⟩

instance : IsTrans OrderRow createdDescRel :=
  ⟨fun _ _ _ hab hbc => le_trans hbc hab⟩

/-- The WHERE clause of `GetUserOrders`:
`user_id = $1 AND deleted_at IS NULL`. -/
def liveOrderOf (userID : Int) (r : OrderRow) : Bool :=
  r.userID == userID && r.deletedAt == none

/-- `GetUserOrders`: the user's non-soft-deleted rows, sorted by
`created_at` descending, projected onto the six selected columns.  An
empty result set is a successful empty slice, as `sqlx.SelectContext`
returns it. -/
def getUserOrders (rows : List OrderRow) (dbFail : Option GoErr)
    (userID : Int) : Except GoErr (List Order) :=
  match dbFail with
  | some e => Except.error e
  | none =>
    Except.ok
      (List.map userOrderView
        (List.insertionSort createdDescRel (List.filter (liveOrderOf userID) rows)))

/-- `DeleteUserData`: soft delete — set `deleted_at` on every order of the
user (`UPDATE orders SET deleted_at = NOW() WHERE user_id = $1`); `now` is
the clock value `NOW()` evaluates to. -/
def deleteUserData (rows : List OrderRow) (dbFail : Option GoErr)
    (now : Int) (chatID : Int) : Except GoErr Unit × List OrderRow :=
  match dbFail with
  | some e => (Except.error e, rows)
  | none =>
    (Except.ok (),
     List.map
       (fun r => if r.userID == chatID then { r with deletedAt := some now } else r)
       rows)

/-! ## `GetUserAgreement` -/

/-- `GetUserAgreement`: scan `agreed_to_tpa, phone_number` for the user;
`sql.ErrNoRows` (row absent) is mapped to the default
`(false, "")` with nil error; an infrastructure failure (`dbFail`, by
convention not `ErrNoRows`) is returned as-is. -/
def getUserAgreement (users : List UserRow) (dbFail : Option GoErr)
    (userID : Int) : Except GoErr (Bool × String) :=
  match dbFail with
  | some e => Except.error e
  | none =>
    match List.find? (fun u => u.userID == userID) users with
    | some u => Except.ok (u.agreed, u.phone)
    | none => Except.ok (false, "")

/-! ## `GetOrderStatistics` (read-through cache, five queries) -/

/-- `COALESCE(SUM(price), 0)` over a set of rows. -/
def sumPrice (rows : List OrderRow) : Int :=
  List.foldr (fun r acc => r.price + acc) 0 rows

/-- The `GROUP BY status` counts, keyed in first-appearance order. -/
def statusCountsOf (rows : List OrderRow) : List (String × Nat) :=
  List.map
    (fun st => (st, (List.filter (fun r => r.status == st) rows).length))
    (List.eraseDups (List.map (fun r => r.status) rows))

/-- The composite the five store queries assemble.  `today` is the
timestamp `CURRENT_DATE` denotes (start of the current day); the week and
month windows are `CURRENT_DATE` minus 7 and 30 days.  None of the five
queries filters on `deleted_at`. -/
def computeStats (rows : List OrderRow) (today : Int) : OrderStatistics :=
  let todayRows := List.filter (fun r => today ≤ r.createdAt) rows
  let weekRows := List.filter (fun r => today - 7 * 86400 ≤ r.createdAt) rows
  let monthRows := List.filter (fun r => today - 30 * 86400 ≤ r.createdAt) rows
  { totalOrders := rows.length
    totalRevenue := sumPrice rows
    todayOrders := todayRows.length
    todayRevenue := sumPrice todayRows
    weekOrders := weekRows.length
    weekRevenue := sumPrice weekRows
    monthOrders := monthRows.length
    monthRevenue := sumPrice monthRows
    statusCounts := statusCountsOf rows }

/-- The store path of `GetOrderStatistics`: run the four aggregate queries
and the status-grouping query in order (`fTotal`, `fToday`, `fWeek`,
`fMonth`, `fStatus` are their failure oracles); the first failure aborts
the whole call with a wrapped error.  On success, cache the composite for
1 hour — skipping the write if `json.Marshal` or the Redis `Set` fails —
and return it.  (The source wrapping texts for the dated queries contain
an apostrophe, elided here.) -/
def statsFromDB (cache : Cache) (rows : List OrderRow) (today : Int)
    (fTotal fToday fWeek fMonth fStatus : Option GoErr)
    (marshalOk setOk : Bool) : Except GoErr OrderStatistics × Cache :=
  match fTotal with
  | some e => (Except.error (GoErr.wrap "failed to get total stats" e), cache)
  | none =>
  match fToday with
  | some e => (Except.error (GoErr.wrap "failed to get todays stats" e), cache)
  | none =>
  match fWeek with
  | some e => (Except.error (GoErr.wrap "failed to get weeks stats" e), cache)
  | none =>
  match fMonth with
  | some e => (Except.error (GoErr.wrap "failed to get months stats" e), cache)
  | none =>
  match fStatus with
  | some e => (Except.error (GoErr.wrap "failed to get status counts" e), cache)
  | none =>
    let stats := computeStats rows today
    (Except.ok stats,
     if marshalOk && setOk then
       cacheSet cache "order_stats" (CacheVal.statsPayload stats) 3600
     else cache)

/-- `GetOrderStatistics`: on a cache hit that deserializes, return the
cached value unconditionally; otherwise recompute from the store. -/
def getOrderStatistics (cache : Cache) (rows : List OrderRow) (today : Int)
    (fTotal fToday fWeek fMonth fStatus : Option GoErr)
    (marshalOk setOk : Bool) : Except GoErr OrderStatistics × Cache :=
  match cacheGet cache "order_stats" with
  | some entry =>
    match unmarshalStats entry.val with
    | some stats => (Except.ok stats, cache)
    | none =>
      statsFromDB cache rows today fTotal fToday fWeek fMonth fStatus
        marshalOk setOk
  | none =>
    statsFromDB cache rows today fTotal fToday fWeek fMonth fStatus
      marshalOk setOk

/-! ## `CheckRateLimit` -/

/-- The rate-limit key `fmt.Sprintf("ratelimit:%d:%s", userID, action)`. -/
def rlKey (userID : Int) (action : String) : String :=
  "ratelimit:" ++ toString userID ++ ":" ++ action

/-- The Redis counter state: the counters and, for each key on which
`Expire` was called, the TTL it set. -/
structure RLState : Type where
  counters : List (String × Int)
  expiries : List (String × Nat)
deriving Repr, DecidableEq

/-- The current counter value of a key (`INCR` treats an absent key as 0). -/
def rlCount (st : RLState) (k : String) : Int :=
  match List.find? (fun p => p.1 == k) st.counters with
  | some p => p.2
  | none => 0

/-- The TTL recorded for a key, if `Expire` was called on it. -/
def rlTTL (st : RLState) (k : String) : Option Nat :=
  (List.find? (fun p => p.1 == k) st.expiries).map (fun p => p.2)

/-- Store a counter value, replacing any previous binding. -/
def rlSetCount (st : RLState) (k : String) (v : Int) : RLState :=
  RLState.mk ((k, v) :: List.filter (fun p => ¬ p.1 == k) st.counters)
    st.expiries

/-- Record an `Expire` call, replacing any previous TTL of the key. -/
def rlSetTTL (st : RLState) (k : String) (w : Nat) : RLState :=
  RLState.mk st.counters
    ((k, w) :: List.filter (fun p => ¬ p.1 == k) st.expiries)

/-- `CheckRateLimit`: `INCR` the counter of `(userID, action)`; when the
post-increment count is exactly 1, `Expire` the key to `window`; return
whether the post-increment count strictly exceeds `limit`.  `incrFail` and
`expireFail` are the failure oracles of the two Redis calls. -/
def checkRateLimit (st : RLState) (incrFail expireFail : Option GoErr)
    (userID : Int) (action : String) (limit : Int) (window : Nat) :
    Except GoErr Bool × RLState :=
  let key := rlKey userID action
  match incrFail with
  | some e =>
    (Except.error (GoErr.wrap "failed to increment rate limit counter" e), st)
  | none =>
    let count := rlCount st key + 1
    let st1 := rlSetCount st key count
    if count == 1 then
      match expireFail with
      | some e =>
        (Except.error (GoErr.wrap "failed to set rate limit window" e), st1)
      | none => (Except.ok (decide (limit < count)), rlSetTTL st1 key window)
    else
      (Except.ok (decide (limit < count)), st1)

/-- `n` consecutive successful `CheckRateLimit` calls for the same
`(userID, action)`, starting from `st`. -/
def iterRL (userID : Int) (action : String) (limit : Int) (window : Nat) :
    Nat → RLState → RLState
  | 0, st => st
  | n + 1, st =>
    iterRL userID action limit window n
      (checkRateLimit st none none userID action limit window).2

/-! ## Helper lemmas -/

theorem find?_append_of_none {α : Type} (p : α → Bool) (l₁ l₂ : List α)
    (h : List.find? p l₁ = none) :
    List.find? p (l₁ ++ l₂) = List.find? p l₂ := by
  induction l₁ with
  | nil => rfl
  | cons a l ih =>
    rw [List.find?] at h
    cases hpa : p a with
    | true => rw [hpa] at h; exact absurd h (by simp)
    | false =>
      rw [hpa] at h
      simpa [List.find?, hpa] using ih h

theorem rlCount_rlSetCount (st : RLState) (k : String) (v : Int) :
    rlCount (rlSetCount st k v) k = v := by
  simp [rlCount, rlSetCount, List.find?]

theorem rlTTL_rlSetTTL (st : RLState) (k : String) (w : Nat) :
    rlTTL (rlSetTTL st k w) k = some w := by
  simp [rlTTL, rlSetTTL, List.find?]

/-! ## Claim C1 -/

/-- Claim C1: For every call `GetTextureByID(id)`: a cache hit whose
deserialized texture has `PricePerDM2 ≤ 0` is treated as a cache miss
(discarded, and the relational store is queried, i.e. the call behaves
exactly as the store fall-back path); a texture freshly read from the
store with `PricePerDM2 ≤ 0` causes the call to return an error and the
value is not written to the cache (the cache is unchanged); a texture
read from the store with `PricePerDM2 > 0` is written to the cache with
a 24-hour time-to-live and returned (stated on the happy path where
serialization and the cache write succeed; claim C10 covers their
failure). -/
theorem C1_getTextureByID_validation
    (cache : Cache) (textures : List Texture) (dbFail : Option GoErr)
    (marshalOk setOk : Bool) (textureID : String)
    (entry : CacheEntry) (t u : Texture) :
    (cacheGet cache (textureCacheKey textureID) = some entry →
      unmarshalTexture entry.val = some t → t.pricePerDM2 ≤ 0 →
      getTextureByID cache textures dbFail marshalOk setOk textureID =
        getTextureFromDB cache textures dbFail marshalOk setOk textureID) ∧
    (cacheGet cache (textureCacheKey textureID) = none →
      List.find? (fun x => x.id == textureID) textures = some u →
      u.pricePerDM2 ≤ 0 →
      getTextureByID cache textures none marshalOk setOk textureID =
        (Except.error (GoErr.msg ("invalid price for texture " ++ textureID)),
         cache)) ∧
    (cacheGet cache (textureCacheKey textureID) = none →
      List.find? (fun x => x.id == textureID) textures = some u →
      0 < u.pricePerDM2 →
      getTextureByID cache textures none true true textureID =
        (Except.ok u,
         cacheSet cache (textureCacheKey textureID)
           (CacheVal.texPayload u) (24 * 3600))) := by
  refine ⟨fun h1 h2 h3 => ?_, fun h1 h2 h3 => ?_, fun h1 h2 h3 => ?_⟩
  · simp [getTextureByID, h1, h2, h3]
  · simp [getTextureByID, getTextureFromDB, dbGetTexture, h1, h2, h3,
      errorsIs]
  · simp [getTextureByID, getTextureFromDB, dbGetTexture, h1, h2,
      not_le.mpr h3]

/-- A texture catalog entry with a valid (positive) price. -/
def goodTex : Texture :=
  { id := "t1", name := "Leather", pricePerDM2 := 5, imageURL := "u"
    inStock := true }

/-- The same catalog entry with a non-positive price. -/
def badTex : Texture :=
  { id := "t1", name := "Leather", pricePerDM2 := 0, imageURL := "u"
    inStock := true }

/-- A cache holding a semantically invalid texture under the key of
`"t1"`. -/
def badTexCache : Cache :=
  [(textureCacheKey "t1", CacheEntry.mk (CacheVal.texPayload badTex) 7)]

theorem C1_getTextureByID_validation_witness :
    (getTextureByID badTexCache [goodTex] none true true "t1" =
      getTextureFromDB badTexCache [goodTex] none true true "t1") ∧
    (getTextureByID [] [badTex] none true true "t1" =
      (Except.error (GoErr.msg "invalid price for texture t1"), [])) ∧
    (getTextureByID [] [goodTex] none true true "t1" =
      (Except.ok goodTex,
       cacheSet [] (textureCacheKey "t1") (CacheVal.texPayload goodTex)
         (24 * 3600))) :=
  ⟨(C1_getTextureByID_validation badTexCache [goodTex] none true true "t1"
      (CacheEntry.mk (CacheVal.texPayload badTex) 7) badTex goodTex).1
      (by rfl) (by rfl) (by decide),
   (C1_getTextureByID_validation [] [badTex] none true true "t1"
      (CacheEntry.mk (CacheVal.texPayload badTex) 7) badTex badTex).2.1
      (by rfl) (by rfl) (by decide),
   (C1_getTextureByID_validation [] [goodTex] none true true "t1"
      (CacheEntry.mk (CacheVal.texPayload badTex) 7) badTex goodTex).2.2
      (by rfl) (by rfl) (by decide)⟩

/-! ## Claim C10 -/

/-- Claim C10: cache population is best-effort.  Whenever `GetTextureByID`
or `GetOrderStatistics` obtains a valid value from the relational store
(here: a cache miss followed by a successful store read), the call returns
that value successfully for every combination of `json.Marshal` success
and Redis `Set` success — a cache-population failure is never surfaced to
the caller. -/
theorem C10_cache_population_best_effort
    (cache : Cache) (textures : List Texture) (rows : List OrderRow)
    (today : Int) (textureID : String) (t : Texture) :
    (cacheGet cache (textureCacheKey textureID) = none →
      List.find? (fun x => x.id == textureID) textures = some t →
      0 < t.pricePerDM2 →
      ∀ marshalOk setOk : Bool,
        (getTextureByID cache textures none marshalOk setOk textureID).1 =
          Except.ok t) ∧
    (cacheGet cache "order_stats" = none →
      ∀ marshalOk setOk : Bool,
        (getOrderStatistics cache rows today none none none none none
            marshalOk setOk).1 =
          Except.ok (computeStats rows today)) := by
  constructor
  · intro h1 h2 h3 marshalOk setOk
    simp [getTextureByID, getTextureFromDB, dbGetTexture, h1, h2,
      not_le.mpr h3]
  · intro h1 marshalOk setOk
    simp [getOrderStatistics, statsFromDB, h1]

theorem C10_cache_population_best_effort_witness :
    ((getTextureByID [] [goodTex] none false false "t1").1 =
      Except.ok goodTex) ∧
    ((getOrderStatistics [] [] 0 none none none none none false false).1 =
      Except.ok (computeStats [] 0)) :=
  ⟨(C10_cache_population_best_effort [] [goodTex] [] 0 "t1" goodTex).1
      (by rfl) (by rfl) (by decide) false false,
   (C10_cache_population_best_effort [] [goodTex] [] 0 "t1" goodTex).2
      (by rfl) false false⟩

theorem rlCount_rlSetTTL (st : RLState) (k : String) (w : Nat) (k2 : String) :
    rlCount (rlSetTTL st k w) k2 = rlCount st k2 := rfl

theorem rlTTL_rlSetCount (st : RLState) (k : String) (v : Int) (k2 : String) :
    rlTTL (rlSetCount st k v) k2 = rlTTL st k2 := rfl

theorem checkRateLimit_fst (st : RLState) (uid : Int) (action : String)
    (limit : Int) (window : Nat) :
    (checkRateLimit st none none uid action limit window).1 =
      Except.ok (decide (limit < rlCount st (rlKey uid action) + 1)) := by
  by_cases h : rlCount st (rlKey uid action) + 1 = 1
  · simp [checkRateLimit, h]
  · simp [checkRateLimit, h]

theorem checkRateLimit_count (st : RLState) (uid : Int) (action : String)
    (limit : Int) (window : Nat) :
    rlCount (checkRateLimit st none none uid action limit window).2
        (rlKey uid action) =
      rlCount st (rlKey uid action) + 1 := by
  by_cases h : rlCount st (rlKey uid action) + 1 = 1
  · simp [checkRateLimit, h, rlCount_rlSetTTL, rlCount_rlSetCount]
  · simp [checkRateLimit, h, rlCount_rlSetCount]

theorem rlCount_iterRL (uid : Int) (action : String) (limit : Int)
    (window : Nat) (k : Nat) (st : RLState) :
    rlCount (iterRL uid action limit window k st) (rlKey uid action) =
      rlCount st (rlKey uid action) + k := by
  induction k generalizing st with
  | zero => simp [iterRL]
  | succ n ih =>
    rw [iterRL, ih, checkRateLimit_count]
    push_cast
    ring

/-! ## Claim C2 -/

/-- Claim C2: `CheckRateLimit(userID, action, limit, window)` increments
the counter keyed by `(userID, action)` (the increment itself is a single
atomic Redis `INCR`; the sequential model takes it as one step), sets the
key's expiry to `window` exactly when the post-increment count equals 1,
and returns `true` iff the post-increment count strictly exceeds `limit`;
consequently, starting from a fresh window (counter 0), the `(k+1)`-th
consecutive call returns `k + 1 > limit` — with `limit = N`, the first
`N` calls return `false` and the `(N+1)`-th returns `true`. -/
theorem C2_checkRateLimit_window_counter
    (st : RLState) (uid : Int) (action : String) (limit : Int)
    (window : Nat) :
    ((checkRateLimit st none none uid action limit window).1 =
       Except.ok (decide (limit < rlCount st (rlKey uid action) + 1))) ∧
    (rlCount (checkRateLimit st none none uid action limit window).2
         (rlKey uid action) =
       rlCount st (rlKey uid action) + 1) ∧
    (rlCount st (rlKey uid action) + 1 = 1 →
       rlTTL (checkRateLimit st none none uid action limit window).2
           (rlKey uid action) =
         some window) ∧
    (rlCount st (rlKey uid action) + 1 ≠ 1 →
       rlTTL (checkRateLimit st none none uid action limit window).2
           (rlKey uid action) =
         rlTTL st (rlKey uid action)) ∧
    (rlCount st (rlKey uid action) = 0 →
       ∀ k : Nat,
         (checkRateLimit (iterRL uid action limit window k st) none none
             uid action limit window).1 =
           Except.ok (decide (limit < (k : Int) + 1))) := by
  refine ⟨checkRateLimit_fst st uid action limit window,
    checkRateLimit_count st uid action limit window,
    fun h => ?_, fun h => ?_, fun h0 k => ?_⟩
  · simp [checkRateLimit, h, rlTTL_rlSetTTL]
  · simp [checkRateLimit, h, rlTTL_rlSetCount]
  · rw [checkRateLimit_fst, rlCount_iterRL, h0, zero_add]

theorem C2_checkRateLimit_window_counter_witness :
    (rlTTL (checkRateLimit (RLState.mk [] []) none none 1 "order" 3 60).2
        (rlKey 1 "order") = some 60) ∧
    ((checkRateLimit (iterRL 1 "order" 3 60 0 (RLState.mk [] [])) none none
        1 "order" 3 60).1 = Except.ok false) ∧
    ((checkRateLimit (iterRL 1 "order" 3 60 1 (RLState.mk [] [])) none none
        1 "order" 3 60).1 = Except.ok false) ∧
    ((checkRateLimit (iterRL 1 "order" 3 60 2 (RLState.mk [] [])) none none
        1 "order" 3 60).1 = Except.ok false) ∧
    ((checkRateLimit (iterRL 1 "order" 3 60 3 (RLState.mk [] [])) none none
        1 "order" 3 60).1 = Except.ok true) ∧
    (rlTTL (checkRateLimit (RLState.mk [(rlKey 1 "order", 4)] []) none none 1 "order"
        3 60).2 (rlKey 1 "order") = rlTTL (RLState.mk [(rlKey 1 "order", 4)] [])
        (rlKey 1 "order")) := by
  refine ⟨(C2_checkRateLimit_window_counter (RLState.mk [] []) 1 "order" 3
      60).2.2.1 (by rfl), ?_, ?_, ?_, ?_,
    (C2_checkRateLimit_window_counter (RLState.mk [(rlKey 1 "order", 4)] []) 1 "order"
      3 60).2.2.2.1 (by decide)⟩
  · simpa using (C2_checkRateLimit_window_counter (RLState.mk [] []) 1
      "order" 3 60).2.2.2.2 (by rfl) 0
  · simpa using (C2_checkRateLimit_window_counter (RLState.mk [] []) 1
      "order" 3 60).2.2.2.2 (by rfl) 1
  · simpa using (C2_checkRateLimit_window_counter (RLState.mk [] []) 1
      "order" 3 60).2.2.2.2 (by rfl) 2
  · simpa using (C2_checkRateLimit_window_counter (RLState.mk [] []) 1
      "order" 3 60).2.2.2.2 (by rfl) 3

/-! ## Claim C3 -/

/-- Claim C3: a successful `SaveOrder(order)` inserts the row, returns the
assigned id and deletes the cached statistics entry `"order_stats"`
unconditionally — so the entry is absent afterwards and a subsequent
`GetOrderStatistics` (here on any table state `rows2` with all five
queries succeeding) recomputes from the relational store, returning the
fresh composite rather than any pre-insert cached value; when the insert
fails, `SaveOrder` returns the wrapped "failed to save order" error and
deletes nothing (database and cache are unchanged). -/
theorem C3_saveOrder_invalidates_stats
    (db : Db) (cache : Cache) (order : Order) (e : GoErr)
    (rows2 : List OrderRow) (today : Int) :
    (saveOrder db cache none order =
      (Except.ok db.nextOrderID,
       Db.mk (db.orders ++ [insertedRow order db.nextOrderID])
         (db.nextOrderID + 1),
       cacheDel cache "order_stats")) ∧
    (cacheGet (cacheDel cache "order_stats") "order_stats" = none) ∧
    (getOrderStatistics (cacheDel cache "order_stats") rows2 today
        none none none none none true true =
      (Except.ok (computeStats rows2 today),
       cacheSet (cacheDel cache "order_stats") "order_stats"
         (CacheVal.statsPayload (computeStats rows2 today)) 3600)) ∧
    (saveOrder db cache (some e) order =
      (Except.error (GoErr.wrap "failed to save order" e), db, cache)) := by
  refine ⟨rfl, cacheGet_cacheDel cache "order_stats", ?_, rfl⟩
  simp [getOrderStatistics, statsFromDB, cacheGet_cacheDel]

/-! ## Claim C4 -/

/-- Claim C4: `GetOrderStatistics()` on a cache hit that deserializes
successfully returns the cached value unconditionally — for every state of
the five query-failure oracles, with no further validation; on a miss, if
any one of the four aggregate queries or the status-grouping query fails,
the whole call returns an error with the cache unchanged, and no partial
statistics value is ever returned. -/
theorem C4_getOrderStatistics_hit_trust_and_query_failures
    (cache : Cache) (rows : List OrderRow) (today : Int)
    (fTotal fToday fWeek fMonth fStatus : Option GoErr)
    (marshalOk setOk : Bool) (entry : CacheEntry) (st : OrderStatistics) :
    (cacheGet cache "order_stats" = some entry →
      unmarshalStats entry.val = some st →
      getOrderStatistics cache rows today fTotal fToday fWeek fMonth
          fStatus marshalOk setOk =
        (Except.ok st, cache)) ∧
    (cacheGet cache "order_stats" = none →
      (fTotal ≠ none ∨ fToday ≠ none ∨ fWeek ≠ none ∨ fMonth ≠ none ∨
        fStatus ≠ none) →
      ∃ err,
        getOrderStatistics cache rows today fTotal fToday fWeek fMonth
            fStatus marshalOk setOk =
          (Except.error err, cache)) := by
  constructor
  · intro h1 h2
    simp [getOrderStatistics, h1, h2]
  · intro h1 h2
    rw [getOrderStatistics, h1]
    cases fTotal with
    | some e => exact ⟨_, rfl⟩
    | none =>
    cases fToday with
    | some e => exact ⟨_, rfl⟩
    | none =>
    cases fWeek with
    | some e => exact ⟨_, rfl⟩
    | none =>
    cases fMonth with
    | some e => exact ⟨_, rfl⟩
    | none =>
    cases fStatus with
    | some e => exact ⟨_, rfl⟩
    | none => simp at h2

/-- An arbitrary cached statistics composite used by witnesses. -/
def exStats : OrderStatistics :=
  { totalOrders := 2, totalRevenue := 300, todayOrders := 1
    todayRevenue := 100, weekOrders := 2, weekRevenue := 300
    monthOrders := 2, monthRevenue := 300
    statusCounts := [("new", 2)] }

/-- A cache holding `exStats` under the statistics key. -/
def statsCache : Cache :=
  [("order_stats", CacheEntry.mk (CacheVal.statsPayload exStats) 3600)]

theorem C4_getOrderStatistics_hit_trust_and_query_failures_witness :
    (getOrderStatistics statsCache [] 0 (some (GoErr.msg "boom"))
        none none none none true true =
      (Except.ok exStats, statsCache)) ∧
    (∃ err,
      getOrderStatistics [] [] 0 none (some (GoErr.msg "boom")) none none
          none true true =
        (Except.error err, [])) :=
  ⟨(C4_getOrderStatistics_hit_trust_and_query_failures statsCache [] 0
      (some (GoErr.msg "boom")) none none none none true true
      (CacheEntry.mk (CacheVal.statsPayload exStats) 3600) exStats).1
      (by rfl) (by rfl),
   (C4_getOrderStatistics_hit_trust_and_query_failures [] [] 0 none
      (some (GoErr.msg "boom")) none none none true true
      (CacheEntry.mk (CacheVal.statsPayload exStats) 3600) exStats).2
      (by rfl) (by simp)⟩

/-! ## Claim C5 -/

/-- A fully populated order as a caller would submit it to `SaveOrder`,
with a non-empty denormalized `TextureName`. -/
def exOrder : Order :=
  { id := 0, userID := 7, widthCM := 10, heightCM := 20, textureID := "t1"
    textureName := "Leather", price := 100, leatherCost := 40
    processCost := 10, totalCost := 50, commission := 5, tax := 6
    netRevenue := 89, profit := 39, contact := "c", status := "new"
    createdAt := 1000, updatedAt := 0 }

/-- Claim C5 is false as stated: the `SaveOrder` INSERT does not include
the `texture_name` column, so `TextureName` — which is neither the id nor
a timestamp — does not survive the round trip.  Concretely: saving
`exOrder` (whose `TextureName` is `"Leather"`) into an empty store assigns
id 1, and `GetOrderByID(1)` returns the row with `TextureName` empty. -/
theorem C5_roundtrip_counterexample :
    ((saveOrder (Db.mk [] 1) [] none exOrder).1 = Except.ok 1) ∧
    (getOrderByID (saveOrder (Db.mk [] 1) [] none exOrder).2.1.orders
        none 1 =
      Except.ok (insertedRow exOrder 1)) ∧
    ((insertedRow exOrder 1).textureName = "") ∧
    (exOrder.textureName = "Leather") :=
  ⟨rfl, rfl, rfl, rfl⟩

/-- Claim C5, amended: after a successful `SaveOrder(order)` returning
`id` (stated for a store whose id sequence is fresh, i.e. no existing row
already carries `nextOrderID`), `GetOrderByID(id)` returns a row equal to
the saved order in every field except the server-assigned ones (id and
`updated_at`) and the denormalized `TextureName`, which the INSERT omits
(the stored row carries the empty default); `created_at` is
caller-supplied and is preserved. -/
theorem C5_roundtrip_amended (db : Db) (cache : Cache) (order : Order)
    (hfresh : ∀ r ∈ db.orders, r.id ≠ db.nextOrderID) :
    ((saveOrder db cache none order).1 = Except.ok db.nextOrderID) ∧
    (getOrderByID (saveOrder db cache none order).2.1.orders none
        db.nextOrderID =
      Except.ok (insertedRow order db.nextOrderID)) ∧
    ((insertedRow order db.nextOrderID).userID = order.userID ∧
     (insertedRow order db.nextOrderID).widthCM = order.widthCM ∧
     (insertedRow order db.nextOrderID).heightCM = order.heightCM ∧
     (insertedRow order db.nextOrderID).textureID = order.textureID ∧
     (insertedRow order db.nextOrderID).price = order.price ∧
     (insertedRow order db.nextOrderID).leatherCost = order.leatherCost ∧
     (insertedRow order db.nextOrderID).processCost = order.processCost ∧
     (insertedRow order db.nextOrderID).totalCost = order.totalCost ∧
     (insertedRow order db.nextOrderID).commission = order.commission ∧
     (insertedRow order db.nextOrderID).tax = order.tax ∧
     (insertedRow order db.nextOrderID).netRevenue = order.netRevenue ∧
     (insertedRow order db.nextOrderID).profit = order.profit ∧
     (insertedRow order db.nextOrderID).contact = order.contact ∧
     (insertedRow order db.nextOrderID).status = order.status ∧
     (insertedRow order db.nextOrderID).createdAt = order.createdAt) ∧
    ((insertedRow order db.nextOrderID).textureName = "") := by
  refine ⟨rfl, ?_,
    ⟨rfl, rfl, rfl, rfl, rfl, rfl, rfl, rfl, rfl, rfl, rfl, rfl, rfl, rfl,
     rfl⟩, rfl⟩
  have hnone :
      List.find? (fun r => r.id == db.nextOrderID) db.orders = none := by
    rw [List.find?_eq_none]
    intro r hr
    simpa using hfresh r hr
  have hfind :
      List.find? (fun r => r.id == db.nextOrderID)
          (db.orders ++ [insertedRow order db.nextOrderID]) =
        some (insertedRow order db.nextOrderID) := by
    rw [find?_append_of_none _ _ _ hnone]
    simp [List.find?, insertedRow]
  simp [saveOrder, getOrderByID, dbGetOrder, hfind]

theorem C5_roundtrip_amended_witness :
    ((saveOrder (Db.mk [] 1) [] none exOrder).1 = Except.ok 1) ∧
    (getOrderByID (saveOrder (Db.mk [] 1) [] none exOrder).2.1.orders
        none 1 =
      Except.ok (insertedRow exOrder 1)) :=
  ⟨(C5_roundtrip_amended (Db.mk [] 1) [] exOrder
      (by intro r hr; exact absurd hr (List.not_mem_nil r))).1,
   (C5_roundtrip_amended (Db.mk [] 1) [] exOrder
      (by intro r hr; exact absurd hr (List.not_mem_nil r))).2.1⟩

/-! ## Claim C6 -/

/-- A live order row of user 7. -/
def exRow : OrderRow :=
  { id := 1, userID := 7, widthCM := 10, heightCM := 20, textureID := "t1"
    textureName := "", price := 100, leatherCost := 40, processCost := 10
    totalCost := 50, commission := 5, tax := 6, netRevenue := 89
    profit := 39, contact := "c", status := "new", createdAt := 1000
    updatedAt := 0, deletedAt := none }

/-- Claim C6 is false as stated: `GetOrderByID` runs
`SELECT * FROM orders WHERE id = $1` with no `deleted_at IS NULL` filter.
Concretely: after `DeleteUserData(7)` stamps `exRow` (id 1) with deletion
time 500, `GetOrderByID(1)` still returns that soft-deleted row. -/
theorem C6_softdelete_counterexample :
    ((deleteUserData [exRow] none 500 7).2 =
      [{ exRow with deletedAt := some 500 }]) ∧
    (getOrderByID (deleteUserData [exRow] none 500 7).2 none 1 =
      Except.ok { exRow with deletedAt := some 500 }) ∧
    (({ exRow with deletedAt := some 500 } : OrderRow).deletedAt ≠
      none) := by
  refine ⟨rfl, rfl, by simp⟩

/-- Claim C6, amended: once `DeleteUserData(u)` has set the deletion
timestamp on all of `u`'s orders, `GetUserOrders(u)` (whose query filters
on `deleted_at IS NULL`) returns the successful empty list; but the
`GetOrderByID` point lookup applies no soft-delete filter and returns
whatever row `SELECT *` finds, soft-deleted or not. -/
theorem C6_softdelete_amended (rows : List OrderRow) (now uid oid : Int)
    (r : OrderRow) :
    (getUserOrders (deleteUserData rows none now uid).2 none uid =
      Except.ok []) ∧
    (List.find? (fun x => x.id == oid) rows = some r →
      getOrderByID rows none oid = Except.ok r) := by
  constructor
  · have hfilter :
        List.filter (liveOrderOf uid) (deleteUserData rows none now uid).2 =
          [] := by
      rw [List.filter_eq_nil_iff]
      intro a ha
      rw [deleteUserData] at ha
      simp only [List.mem_map] at ha
      obtain ⟨x, _, hx⟩ := ha
      by_cases hux : x.userID == uid
      · rw [if_pos hux] at hx
        subst hx
        simp [liveOrderOf]
      · rw [if_neg hux] at hx
        subst hx
        simp [liveOrderOf, hux]
    rw [getUserOrders, hfilter]
    rfl
  · intro hfind
    simp [getOrderByID, dbGetOrder, hfind]

theorem C6_softdelete_amended_witness :
    (getUserOrders (deleteUserData [exRow] none 500 7).2 none 7 =
      Except.ok []) ∧
    (getOrderByID [{ exRow with deletedAt := some 500 }] none 1 =
      Except.ok { exRow with deletedAt := some 500 }) :=
  ⟨(C6_softdelete_amended [exRow] 500 7 1 exRow).1,
   (C6_softdelete_amended [{ exRow with deletedAt := some 500 }] 500 7 1
      { exRow with deletedAt := some 500 }).2 (by rfl)⟩

/-! ## Claim C7 -/

/-- Claim C7: `GetUserOrders(userID)` succeeds and returns exactly the
user's non-soft-deleted orders (as the six selected columns): the result
list is a permutation of the views of the rows matching
`user_id = userID AND deleted_at IS NULL`, it is sorted by creation
timestamp descending (newest first), and when no row matches the result
is the successful empty list, not an error. -/
theorem C7_getUserOrders_live_sorted (rows : List OrderRow) (uid : Int) :
    ∃ l : List Order,
      getUserOrders rows none uid = Except.ok l ∧
      List.Perm l
        (List.map userOrderView (List.filter (liveOrderOf uid) rows)) ∧
      List.Pairwise (fun a b : Order => b.createdAt ≤ a.createdAt) l ∧
      (List.filter (liveOrderOf uid) rows = [] → l = []) := by
  refine ⟨_, rfl, ?_, ?_, ?_⟩
  · exact List.Perm.map userOrderView
      (List.perm_insertionSort createdDescRel _)
  · exact List.Pairwise.map userOrderView (fun a b h => h)
      (List.sorted_insertionSort createdDescRel
        (List.filter (liveOrderOf uid) rows))
  · intro h
    rw [h]
    rfl

theorem C7_getUserOrders_live_sorted_witness :
    getUserOrders [{ exRow with deletedAt := some 500 }] none 7 =
      Except.ok [] := by
  obtain ⟨l, h1, -, -, h4⟩ :=
    C7_getUserOrders_live_sorted [{ exRow with deletedAt := some 500 }] 7
  rw [h1, h4 (by rfl)]

/-! ## Claim C8 -/

/-- Claim C8: for every `userID` with no row in the `users` table,
`GetUserAgreement(userID)` returns `(agreed = false, phone = "")` with a
nil error — row absence is never reported as an error. -/
theorem C8_getUserAgreement_absent_default (users : List UserRow)
    (uid : Int)
    (h : List.find? (fun u => u.userID == uid) users = none) :
    getUserAgreement users none uid = Except.ok (false, "") := by
  simp [getUserAgreement, h]

theorem C8_getUserAgreement_absent_default_witness :
    getUserAgreement [UserRow.mk 3 true "555"] none 5 =
      Except.ok (false, "") :=
  C8_getUserAgreement_absent_default [UserRow.mk 3 true "555"] 5 (by rfl)

/-! ## Claim C9 -/

/-- Claim C9 is false as stated for `GetOrderByID`: its not-found error is
`fmt.Errorf("order not found")` — built without `%w`, so its unwrap chain
holds no sentinel (`hasSentinel` is false) and in particular
`errors.Is(err, sql.ErrNoRows)` is false; nothing but its message text
identifies it as the not-found case. -/
theorem C9_order_not_found_kind_counterexample :
    (getOrderByID [] none 1 = Except.error (GoErr.msg "order not found")) ∧
    (hasSentinel (GoErr.msg "order not found") = false) ∧
    (errorsIs (GoErr.msg "order not found") sqlErrNoRows = false) :=
  ⟨rfl, rfl, rfl⟩

/-- Claim C9, amended: `GetTextureByID`'s not-found error wraps
`sql.ErrNoRows`, so `errors.Is` against that sentinel is true exactly in
the not-found case and false for any other query failure (whose underlying
error is not the sentinel); but `GetOrderByID`'s not-found error is a
fresh message-only error whose unwrap chain reaches no sentinel, so
`errors.Is` against every target fails on it — it is distinguishable from
other failures only by its message text. -/
theorem C9_not_found_error_kinds (cache : Cache)
    (textures : List Texture) (rows : List OrderRow) (textureID : String)
    (oid : Int) (e0 : GoErr) :
    (cacheGet cache (textureCacheKey textureID) = none →
      List.find? (fun t => t.id == textureID) textures = none →
      ∃ err,
        (getTextureByID cache textures none true true textureID).1 =
          Except.error err ∧
        errorsIs err sqlErrNoRows = true) ∧
    (cacheGet cache (textureCacheKey textureID) = none →
      errorsIs e0 sqlErrNoRows = false →
      ∃ err,
        (getTextureByID cache textures (some e0) true true textureID).1 =
          Except.error err ∧
        errorsIs err sqlErrNoRows = false) ∧
    (List.find? (fun r => r.id == oid) rows = none →
      getOrderByID rows none oid =
        Except.error (GoErr.msg "order not found") ∧
      ∀ target : GoErr,
        errorsIs (GoErr.msg "order not found") target = false) := by
  refine ⟨fun h1 h2 => ?_, fun h1 h2 => ?_, fun h1 => ?_⟩
  · refine ⟨GoErr.wrap "texture not found" sqlErrNoRows, ?_, by rfl⟩
    simp [getTextureByID, getTextureFromDB, dbGetTexture, h1, h2,
      errorsIs, sqlErrNoRows]
  · refine ⟨GoErr.wrap "failed to get texture" e0, ?_, by simp [errorsIs, h2]⟩
    simp [getTextureByID, getTextureFromDB, dbGetTexture, h1, h2]
  · constructor
    · simp [getOrderByID, dbGetOrder, h1, errorsIs, sqlErrNoRows]
    · intro target
      exact errorsIs_sentinel_of_hasSentinel_false _ target rfl

theorem C9_not_found_error_kinds_witness :
    (∃ err,
      (getTextureByID [] [] none true true "t1").1 = Except.error err ∧
      errorsIs err sqlErrNoRows = true) ∧
    (∃ err,
      (getTextureByID [] [] (some (GoErr.msg "conn reset")) true true
          "t1").1 =
        Except.error err ∧
      errorsIs err sqlErrNoRows = false) ∧
    (getOrderByID [] none 9 = Except.error (GoErr.msg "order not found") ∧
      ∀ target : GoErr,
        errorsIs (GoErr.msg "order not found") target = false) :=
  ⟨(C9_not_found_error_kinds [] [] [] "t1" 9 (GoErr.msg "conn reset")).1
      (by rfl) (by rfl),
   (C9_not_found_error_kinds [] [] [] "t1" 9 (GoErr.msg "conn reset")).2.1
      (by rfl) (by rfl),
   (C9_not_found_error_kinds [] [] [] "t1" 9 (GoErr.msg "conn reset")).2.2
      (by rfl)⟩
